import Mathlib

/-!
Verification development for the Battery-Indicator-Widget program
(src/Battery-widget.py), a Qt overlay widget showing battery percentage.

The Python source is shallowly embedded below. Machine floats are modelled
as exact rationals (`ℚ`); Qt animation machinery (`QPropertyAnimation`,
`QSequentialAnimationGroup`) is modelled by explicit records holding start
value, end value, duration, easing curve and an elapsed-time clock, with
the standard Qt interpolation rule
`current = start + ease(elapsed/duration) * (end - start)`, clamped to the
end value once `elapsed ≥ duration`; `start()` on a running animation group
is a no-op, and `stop()` followed by `start()` rewinds the clock. Fallible
sensor reads are modelled by an explicit result type.
-/

namespace BatteryIndicator

/-- Python `int(q)`: truncation toward zero. -/
def pyInt (q : ℚ) : Int := if q < 0 then ⌈q⌉ else ⌊q⌋

/-- The two easing curves the program uses, `QEasingCurve.OutCubic` and
`QEasingCurve.InCubic`. -/
inductive Easing where
  | outCubic : Easing
  | inCubic : Easing
deriving DecidableEq, Repr

/-- Value of an easing curve at progress `x ∈ [0,1]`:
out-cubic is `1 - (1-x)^3`, in-cubic is `x^3`. -/
def Easing.eval : Easing → ℚ → ℚ
  | .outCubic, x => 1 - (1 - x) ^ 3
  | .inCubic, x => x ^ 3

/-- State of one `QPropertyAnimation`: the configured start/end values,
duration (ms), easing curve, whether it is running, and its clock. -/
structure AnimState where
  startValue : ℚ
  endValue : ℚ
  duration : ℚ
  curve : Easing
  running : Bool
  elapsed : ℚ
deriving DecidableEq, Repr

/-- Interpolated value of a property animation at elapsed time `t` (ms since
start): Qt computes `start + ease(t/duration) * (end - start)` and clamps to
the end value once the duration has elapsed. -/
def AnimState.valueAt (a : AnimState) (t : ℚ) : ℚ :=
  if a.duration ≤ t then a.endValue
  else a.startValue + a.curve.eval (t / a.duration) * (a.endValue - a.startValue)

/-- State of the `QSequentialAnimationGroup` holding the two pulse child
animations (whose parameters are fixed in `initAnimation`). -/
structure PulseGroup where
  running : Bool
  elapsed : ℚ
deriving DecidableEq, Repr

/-- `QAbstractAnimation.start()` on the pulse group: a no-op when the group
is already running, otherwise rewinds to 0 and runs. -/
def PulseGroup.groupStart (g : PulseGroup) : PulseGroup :=
  if g.running then g else { running := true, elapsed := 0 }

/-- `anim_grow` from `initAnimation`: pulse_scale 1.0 → 1.1 over 150 ms,
out-cubic. -/
def anim_grow : AnimState :=
  { startValue := 1, endValue := 11/10, duration := 150, curve := .outCubic,
    running := false, elapsed := 0 }

/-- `anim_shrink` from `initAnimation`: pulse_scale 1.1 → 1.0 over 250 ms,
in-cubic. -/
def anim_shrink : AnimState :=
  { startValue := 11/10, endValue := 1, duration := 250, curve := .inCubic,
    running := false, elapsed := 0 }

/-- Value of the sequential pulse group at elapsed time `t`: the grow child
for the first 150 ms, then the shrink child on the remaining time. -/
def pulseValueAt (t : ℚ) : ℚ :=
  if t < anim_grow.duration then anim_grow.valueAt t
  else anim_shrink.valueAt (t - anim_grow.duration)

/-- The mouse buttons relevant to `mousePressEvent` (`Qt.MouseButton`). -/
inductive MouseButton where
  | LeftButton : MouseButton
  | RightButton : MouseButton
  | MiddleButton : MouseButton
  | OtherButton : MouseButton
deriving DecidableEq, Repr

/-- The widget's mutable state: the two animated property backing fields
`_animated_percent` and `_pulse_scale`, the `plugged` / `prev_plugged`
flags, the percent `QPropertyAnimation`, the pulse group, and whether the
window has been closed. -/
structure BatteryWidget where
  animated_percent : ℚ
  pulse_scale : ℚ
  plugged : Bool
  prev_plugged : Bool
  animation : AnimState
  pulse_group : PulseGroup
  closed : Bool
deriving DecidableEq, Repr

/-- Widget state right after `__init__` / `initUI` / `initAnimation`:
`_animated_percent = 0.0`, `_pulse_scale = 1.0`, both flags false, the
percent animation configured with 1000 ms duration and out-cubic easing,
the pulse group idle. -/
def initWidget : BatteryWidget :=
  { animated_percent := 0
    pulse_scale := 1
    plugged := false
    prev_plugged := false
    animation := { startValue := 0, endValue := 0, duration := 1000,
                   curve := .outCubic, running := false, elapsed := 0 }
    pulse_group := { running := false, elapsed := 0 }
    closed := false }

/-- The struct returned by `psutil.sensors_battery()` when a battery is
present: `percent` (a float) and `power_plugged` (a boolean). -/
structure SensorsBattery where
  percent : ℚ
  power_plugged : Bool
deriving DecidableEq, Repr

/-- Outcome of the sensor read in `update_battery_info`: the call may raise
an exception, return `None` (no battery present), or return a battery
struct. -/
inductive SensorRead where
  | raise : SensorRead
  | ok : Option SensorsBattery → SensorRead
deriving DecidableEq, Repr

/-- The poll callback `update_battery_info`, parameterised by the outcome of
the `psutil.sensors_battery()` read. On an exception the handler logs and
leaves all state untouched. Otherwise: `target_percent = int(battery.percent)
if battery else 0`; `plugged = battery.power_plugged if battery else False`;
the pulse group is started when `plugged and not prev_plugged`;
`prev_plugged` is set to the new `plugged`; and the percent animation is
stopped, retargeted from the current `_animated_percent` to
`target_percent`, and restarted. -/
def update_battery_info (s : BatteryWidget) (r : SensorRead) : BatteryWidget :=
  match r with
  | .raise => s
  | .ok battery =>
      let target_percent : Int :=
        match battery with
        | some b => pyInt b.percent
        | none => 0
      let plugged : Bool :=
        match battery with
        | some b => b.power_plugged
        | none => false
      let pulse' : PulseGroup :=
        if plugged && !s.prev_plugged then s.pulse_group.groupStart
        else s.pulse_group
      { s with
        plugged := plugged
        prev_plugged := plugged
        pulse_group := pulse'
        animation := { s.animation with
                        startValue := s.animated_percent
                        endValue := (target_percent : ℚ)
                        running := true
                        elapsed := 0 } }

/-- The displayed percent at elapsed time `t` after the last poll: while the
percent animation runs, the animation clock writes the interpolated value
into `_animated_percent` via the property setter; otherwise the backing
field keeps its last value. -/
def displayedAt (s : BatteryWidget) (t : ℚ) : ℚ :=
  if s.animation.running then s.animation.valueAt t else s.animated_percent

/-- Color-pair selection from `paintEvent`: plugged → charging green;
else percent < 20 → low-battery red; percent < 50 → medium yellow;
else high cyan. -/
def colorPair (plugged : Bool) (percent : ℚ) : String × String :=
  if plugged then ("#69F0AE", "#00C853")
  else if percent < 20 then ("#F44336", "#D32F2F")
  else if percent < 50 then ("#FFC107", "#FFA000")
  else ("#00E5FF", "#00B8D4")

/-- What `draw_battery_icon` paints that depends on state: the fill level
`(body_rect.height() - 4) * (percent / 100)` with `body_rect` 45 tall, the
fill rectangle's top edge `body_rect.bottom() - 2 - fill_height` with bottom
at 80, and whether the charging bolt is drawn. -/
structure BatteryIconOutput where
  fill_height : ℚ
  fillTop : ℚ
  bolt : Bool
deriving DecidableEq, Repr

/-- The state-dependent output of `draw_battery_icon`. -/
def draw_battery_icon (plugged : Bool) (percent : ℚ) : BatteryIconOutput :=
  let fill_height : ℚ := (45 - 4) * (percent / 100)
  { fill_height := fill_height
    fillTop := 80 - 2 - fill_height
    bolt := plugged }

/-- The state-dependent drawing commands issued by one `paintEvent` call:
the background and progress arcs (Qt angles in 1/16 degree), the selected
gradient color pair, the scaled arc-rect side length, the battery icon, and
the integer percent text. -/
structure RenderOutput where
  bgStartAngle : Int
  bgSpanAngle : Int
  progressStartAngle : Int
  progressSpan : ℚ
  color1 : String
  color2 : String
  arcRectWidth : ℚ
  icon : BatteryIconOutput
  textPercent : Int
deriving DecidableEq, Repr

/-- The paint routine `paintEvent` as a function of widget state:
`percent = self._animated_percent`; colors from `colorPair`; background arc
from `90*16` spanning `360*16`; progress arc from `90*16` spanning
`-percent/100 * (360*16)`; arc rect scaled by `_pulse_scale` from the
100-pixel base rect; icon via `draw_battery_icon`; text `int(percent)`. -/
def paintEvent (s : BatteryWidget) : RenderOutput :=
  let percent := s.animated_percent
  let c := colorPair s.plugged percent
  { bgStartAngle := 90 * 16
    bgSpanAngle := 360 * 16
    progressStartAngle := 90 * 16
    progressSpan := -percent / 100 * (360 * 16)
    color1 := c.1
    color2 := c.2
    arcRectWidth := 100 * s.pulse_scale
    icon := draw_battery_icon s.plugged percent
    textPercent := pyInt percent }

/-- `mousePressEvent`: the right button closes the window; any other button
does nothing. -/
def mousePressEvent (s : BatteryWidget) (button : MouseButton) : BatteryWidget :=
  if button = .RightButton then { s with closed := true } else s

/-! ## Helper lemmas -/

/-- A successful poll with a present battery rebuilds the percent animation:
same duration and curve, start at the current displayed value, end at the
truncated reading, rewound and running. -/
lemma update_some_animation (s : BatteryWidget) (p : ℚ) (b : Bool) :
    (update_battery_info s (.ok (some ⟨p, b⟩))).animation =
      { s.animation with
        startValue := s.animated_percent
        endValue := (pyInt p : ℚ)
        running := true
        elapsed := 0 } := rfl

/-- A successful poll with no battery rebuilds the percent animation with
end value 0. -/
lemma update_none_animation (s : BatteryWidget) :
    (update_battery_info s (.ok none)).animation =
      { s.animation with
        startValue := s.animated_percent
        endValue := 0
        running := true
        elapsed := 0 } := rfl

/-- Once a running percent animation's duration has elapsed, the displayed
value is exactly the animation's end value. -/
lemma displayedAt_complete (s : BatteryWidget) (h : s.animation.running = true)
    (t : ℚ) (ht : s.animation.duration ≤ t) :
    displayedAt s t = s.animation.endValue := by
  rw [displayedAt, if_pos h, AnimState.valueAt, if_pos ht]

/-- After the full 400 ms, the pulse group's value is exactly 1. -/
lemma pulseValueAt_done (t : ℚ) (h : 400 ≤ t) : pulseValueAt t = 1 := by
  rw [pulseValueAt, if_neg (by simp [anim_grow]; linarith), AnimState.valueAt,
    if_pos (by simp [anim_grow, anim_shrink]; linarith)]
  rfl

/-- For a nonnegative argument, Python truncation is the floor. -/
lemma pyInt_of_nonneg (p : ℚ) (h : 0 ≤ p) : pyInt p = ⌊p⌋ := by
  rw [pyInt, if_neg (by linarith)]

/-- Truncating a reading in [0, 100] stays in [0, 100]. -/
lemma pyInt_bounds (p : ℚ) (h0 : 0 ≤ p) (h1 : p ≤ 100) :
    0 ≤ pyInt p ∧ pyInt p ≤ 100 := by
  rw [pyInt_of_nonneg p h0]
  constructor
  · exact Int.le_floor.mpr (by exact_mod_cast h0)
  · have := Int.floor_le_floor h1
    simpa using this

/-! ## Claim theorems -/

/-- C1: On a successful poll, the pulse group is started exactly when the
freshly read plugged flag is true and the flag from the last successful poll
was false: under that trigger an idle group is rewound and run, a running
group is left untouched (not restarted), and without the trigger (including
a true→true repeat reading, and the no-battery case) the group is untouched.
The pulse itself is one-shot: value `1 + easeOutCubic(t/150) * 0.1` while
growing (t < 150 ms), `1.1 + easeInCubic((t-150)/250) * (-0.1)` while
shrinking (150 ≤ t < 400 ms), starting at 1, peaking at 1.1 at 150 ms, and
equal to 1 from 400 ms on. -/
theorem pulse_trigger_and_shape :
    (∀ (s : BatteryWidget) (p : ℚ) (b : Bool),
      (b = true → s.prev_plugged = false → s.pulse_group.running = false →
        (update_battery_info s (.ok (some ⟨p, b⟩))).pulse_group =
          { running := true, elapsed := 0 }) ∧
      (s.pulse_group.running = true →
        (update_battery_info s (.ok (some ⟨p, b⟩))).pulse_group = s.pulse_group) ∧
      (¬(b = true ∧ s.prev_plugged = false) →
        (update_battery_info s (.ok (some ⟨p, b⟩))).pulse_group = s.pulse_group)) ∧
    (∀ s : BatteryWidget, (update_battery_info s (.ok none)).pulse_group = s.pulse_group) ∧
    (∀ t : ℚ, 0 ≤ t → t < 150 →
      pulseValueAt t = 1 + Easing.outCubic.eval (t / 150) * (11/10 - 1)) ∧
    (∀ t : ℚ, 150 ≤ t → t < 400 →
      pulseValueAt t = 11/10 + Easing.inCubic.eval ((t - 150) / 250) * (1 - 11/10)) ∧
    pulseValueAt 0 = 1 ∧ pulseValueAt 150 = 11/10 ∧
    (∀ t : ℚ, 400 ≤ t → pulseValueAt t = 1) := by
  refine ⟨?_, ?_, ?_, ?_, ?_, ?_, pulseValueAt_done⟩
  · intro s p b
    refine ⟨?_, ?_, ?_⟩
    · intro hb hprev hrun
      simp [update_battery_info, PulseGroup.groupStart, hb, hprev, hrun]
    · intro hrun
      cases b <;> by_cases hprev : s.prev_plugged = true <;>
        simp_all [update_battery_info, PulseGroup.groupStart]
    · intro hne
      cases b <;> by_cases hprev : s.prev_plugged = true <;>
        simp_all [update_battery_info, PulseGroup.groupStart]
  · intro s
    simp [update_battery_info]
  · intro t h0 h1
    rw [pulseValueAt, if_pos (by simp [anim_grow]; linarith), AnimState.valueAt,
      if_neg (by simp [anim_grow]; linarith)]
    rfl
  · intro t h0 h1
    rw [pulseValueAt, if_neg (by simp [anim_grow]; linarith), AnimState.valueAt,
      if_neg (by simp [anim_grow, anim_shrink]; linarith)]
    rfl
  · norm_num [pulseValueAt, AnimState.valueAt, anim_grow, Easing.eval]
  · norm_num [pulseValueAt, AnimState.valueAt, anim_grow, anim_shrink, Easing.eval]

/-- Witness for C1 at concrete inputs: a false→true transition from the
initial state starts the pulse, and the pulse value follows the grow and
shrink formulas at 75 ms and 200 ms and is back to 1 at 500 ms. -/
theorem pulse_trigger_and_shape_witness :
    (update_battery_info initWidget (.ok (some ⟨50, true⟩))).pulse_group =
      { running := true, elapsed := 0 } ∧
    pulseValueAt 75 = 1 + Easing.outCubic.eval (75 / 150) * (11/10 - 1) ∧
    pulseValueAt 200 = 11/10 + Easing.inCubic.eval ((200 - 150) / 250) * (1 - 11/10) ∧
    pulseValueAt 500 = 1 :=
  ⟨(pulse_trigger_and_shape.1 initWidget 50 true).1 rfl rfl rfl,
   pulse_trigger_and_shape.2.2.1 75 (by norm_num) (by norm_num),
   pulse_trigger_and_shape.2.2.2.1 200 (by norm_num) (by norm_num),
   pulse_trigger_and_shape.2.2.2.2.2.2 500 (by norm_num)⟩

/-- C2 counterexample: the claim says the new animation's end value is "the
freshly read percent" and that the displayed percent converges to the
reading p. For the concrete fractional reading 99.9 the code truncates:
the end value is 99, not 99.9, and the displayed percent at completion is
99, not 99.9. -/
theorem percent_anim_claim_counterexample :
    (update_battery_info initWidget (.ok (some ⟨999/10, false⟩))).animation.endValue
      ≠ 999/10 ∧
    displayedAt (update_battery_info initWidget (.ok (some ⟨999/10, false⟩))) 1000
      ≠ 999/10 := by
  have he : (update_battery_info initWidget (.ok (some ⟨999/10, false⟩))).animation.endValue
      = 99 := by
    rw [update_some_animation]
    norm_num [pyInt]
  constructor
  · rw [he]; norm_num
  · rw [displayedAt_complete _ (by rw [update_some_animation]) 1000
      (by rw [update_some_animation]; norm_num [initWidget]), he]
    norm_num

/-- C2 (amended): every successful poll stops the in-flight percent
animation and restarts it with start value the current displayed percent and
end value the integer truncation `int(battery.percent)` of the fresh
reading, keeping the 1000 ms duration and out-cubic easing configured at
initialisation; once that animation completes (1000 ms elapse with no
further poll), the displayed percent equals that truncated reading. -/
theorem percent_anim_restart_truncated :
    initWidget.animation.duration = 1000 ∧
    initWidget.animation.curve = .outCubic ∧
    (∀ (s : BatteryWidget) (r : SensorRead),
      (update_battery_info s r).animation.duration = s.animation.duration ∧
      (update_battery_info s r).animation.curve = s.animation.curve) ∧
    (∀ (s : BatteryWidget) (p : ℚ) (b : Bool),
      (update_battery_info s (.ok (some ⟨p, b⟩))).animation.startValue = s.animated_percent ∧
      (update_battery_info s (.ok (some ⟨p, b⟩))).animation.endValue = (pyInt p : ℚ) ∧
      (update_battery_info s (.ok (some ⟨p, b⟩))).animation.running = true ∧
      (update_battery_info s (.ok (some ⟨p, b⟩))).animation.elapsed = 0) ∧
    (∀ (s : BatteryWidget) (p : ℚ) (b : Bool) (t : ℚ),
      s.animation.duration = 1000 → 1000 ≤ t →
      displayedAt (update_battery_info s (.ok (some ⟨p, b⟩))) t = (pyInt p : ℚ)) := by
  refine ⟨rfl, rfl, ?_, ?_, ?_⟩
  · intro s r
    cases r with
    | raise => exact ⟨rfl, rfl⟩
    | ok battery => cases battery <;> exact ⟨rfl, rfl⟩
  · intro s p b
    exact ⟨rfl, rfl, rfl, rfl⟩
  · intro s p b t hd ht
    rw [displayedAt_complete _ (by rw [update_some_animation]) t
      (by rw [update_some_animation]; simpa [hd] using ht), update_some_animation]

/-- Witness for C2 (amended) at a concrete input: polling a reading of 50
from the initial state displays exactly 50 once 1000 ms have elapsed. -/
theorem percent_anim_restart_truncated_witness :
    displayedAt (update_battery_info initWidget (.ok (some ⟨50, false⟩))) 1000 = 50 := by
  have h := percent_anim_restart_truncated.2.2.2.2 initWidget 50 false 1000 rfl (le_refl 1000)
  rw [h]
  norm_num [pyInt]

/-- C3: the render's color pair comes from the current state: plugged →
green pair; else displayed percent < 20 → red pair; < 50 → yellow pair;
otherwise cyan pair; in particular 15 → red, 35 → yellow, 75 → cyan, and
plugged → green at every percent. -/
theorem color_pair_selection :
    (∀ s : BatteryWidget,
      (paintEvent s).color1 = (colorPair s.plugged s.animated_percent).1 ∧
      (paintEvent s).color2 = (colorPair s.plugged s.animated_percent).2) ∧
    (∀ p : ℚ, colorPair true p = ("#69F0AE", "#00C853")) ∧
    (∀ p : ℚ, p < 20 → colorPair false p = ("#F44336", "#D32F2F")) ∧
    (∀ p : ℚ, 20 ≤ p → p < 50 → colorPair false p = ("#FFC107", "#FFA000")) ∧
    (∀ p : ℚ, 50 ≤ p → colorPair false p = ("#00E5FF", "#00B8D4")) ∧
    colorPair false 15 = ("#F44336", "#D32F2F") ∧
    colorPair false 35 = ("#FFC107", "#FFA000") ∧
    colorPair false 75 = ("#00E5FF", "#00B8D4") := by
  refine ⟨fun s => ⟨rfl, rfl⟩, fun p => rfl, ?_, ?_, ?_, by norm_num [colorPair],
    by norm_num [colorPair], by norm_num [colorPair]⟩
  · intro p h
    rw [colorPair, if_neg (by simp), if_pos h]
  · intro p h1 h2
    rw [colorPair, if_neg (by simp), if_neg (not_lt.mpr h1), if_pos h2]
  · intro p h
    rw [colorPair, if_neg (by simp), if_neg (by linarith), if_neg (not_lt.mpr h)]

/-- Witness for C3 at the concrete percent values 15, 35, 75 and a plugged
state. -/
theorem color_pair_selection_witness :
    colorPair false 15 = ("#F44336", "#D32F2F") ∧
    colorPair false 35 = ("#FFC107", "#FFA000") ∧
    colorPair false 75 = ("#00E5FF", "#00B8D4") ∧
    colorPair true 3 = ("#69F0AE", "#00C853") :=
  ⟨color_pair_selection.2.2.1 15 (by norm_num),
   color_pair_selection.2.2.2.1 35 (by norm_num) (by norm_num),
   color_pair_selection.2.2.2.2.1 75 (by norm_num),
   color_pair_selection.2.1 3⟩

/-- C4: when the sensor read raises, the poll leaves the entire widget state
(displayed percent, plugged, prev_plugged, both animations) exactly as it
was — the handler only logs — and the next scheduled poll behaves exactly as
it would have without the failure. -/
theorem poll_error_leaves_state :
    (∀ s : BatteryWidget, update_battery_info s .raise = s) ∧
    (∀ (s : BatteryWidget) (r : SensorRead),
      update_battery_info (update_battery_info s .raise) r = update_battery_info s r) :=
  ⟨fun _ => rfl, fun _ _ => rfl⟩

/-- C5: when the sensor read returns None (no battery present), the poll
treats it as percent 0 and plugged false: the plugged and prev_plugged flags
become false, the percent animation restarts from the current displayed
value toward 0 (displaying 0 at completion), and the pulse group is not
started. -/
theorem poll_no_battery_defaults :
    ∀ s : BatteryWidget,
      (update_battery_info s (.ok none)).plugged = false ∧
      (update_battery_info s (.ok none)).prev_plugged = false ∧
      (update_battery_info s (.ok none)).animation.endValue = 0 ∧
      (update_battery_info s (.ok none)).animation.startValue = s.animated_percent ∧
      (update_battery_info s (.ok none)).animation.running = true ∧
      (update_battery_info s (.ok none)).pulse_group = s.pulse_group ∧
      (∀ t : ℚ, s.animation.duration = 1000 → 1000 ≤ t →
        displayedAt (update_battery_info s (.ok none)) t = 0) := by
  intro s
  refine ⟨rfl, rfl, rfl, rfl, rfl, by simp [update_battery_info], ?_⟩
  intro t hd ht
  rw [displayedAt_complete _ (by rw [update_none_animation]) t
    (by rw [update_none_animation]; simpa [hd] using ht), update_none_animation]

/-- Witness for C5 at a concrete input: a no-battery reading from the
initial state sets plugged false and displays 0 once the animation is
done. -/
theorem poll_no_battery_defaults_witness :
    (update_battery_info initWidget (.ok none)).plugged = false ∧
    displayedAt (update_battery_info initWidget (.ok none)) 1500 = 0 :=
  ⟨(poll_no_battery_defaults initWidget).1,
   (poll_no_battery_defaults initWidget).2.2.2.2.2.2 1500 rfl (by norm_num)⟩

/-- C6: completion invariants. Truncating any OS reading in [0,100] lands in
[0,100]; hence after any successful poll on a battery reading in [0,100]
(and likewise after a no-battery reading, which yields 0), the displayed
percent at animation completion lies in [0,100]; and from 400 ms on the
one-shot pulse value is exactly 1. -/
theorem animation_completion_invariants :
    (∀ p : ℚ, 0 ≤ p → p ≤ 100 → 0 ≤ pyInt p ∧ pyInt p ≤ 100) ∧
    (∀ (s : BatteryWidget) (p : ℚ) (b : Bool) (t : ℚ),
      0 ≤ p → p ≤ 100 → s.animation.duration = 1000 → 1000 ≤ t →
      0 ≤ displayedAt (update_battery_info s (.ok (some ⟨p, b⟩))) t ∧
      displayedAt (update_battery_info s (.ok (some ⟨p, b⟩))) t ≤ 100) ∧
    (∀ (s : BatteryWidget) (t : ℚ), s.animation.duration = 1000 → 1000 ≤ t →
      displayedAt (update_battery_info s (.ok none)) t = 0) ∧
    (∀ t : ℚ, 400 ≤ t → pulseValueAt t = 1) := by
  refine ⟨pyInt_bounds, ?_, ?_, pulseValueAt_done⟩
  · intro s p b t h0 h1 hd ht
    have hv : displayedAt (update_battery_info s (.ok (some ⟨p, b⟩))) t = (pyInt p : ℚ) := by
      rw [displayedAt_complete _ (by rw [update_some_animation]) t
        (by rw [update_some_animation]; simpa [hd] using ht), update_some_animation]
    obtain ⟨hl, hu⟩ := pyInt_bounds p h0 h1
    rw [hv]
    exact ⟨by exact_mod_cast hl, by exact_mod_cast hu⟩
  · intro s t hd ht
    rw [displayedAt_complete _ (by rw [update_none_animation]) t
      (by rw [update_none_animation]; simpa [hd] using ht), update_none_animation]

/-- Witness for C6 at concrete inputs: a 100-percent plugged reading from
the initial state displays a value in [0,100] at completion, and the pulse
value at exactly 400 ms is 1. -/
theorem animation_completion_invariants_witness :
    (0 ≤ displayedAt (update_battery_info initWidget (.ok (some ⟨100, true⟩))) 1000 ∧
      displayedAt (update_battery_info initWidget (.ok (some ⟨100, true⟩))) 1000 ≤ 100) ∧
    pulseValueAt 400 = 1 :=
  ⟨animation_completion_invariants.2.1 initWidget 100 true 1000
      (by norm_num) (by norm_num) rfl (le_refl 1000),
   animation_completion_invariants.2.2.2 400 (le_refl 400)⟩

/-- C7: every render issues a background arc from 90·16 (top) spanning the
full 360·16 sixteenths of a degree, and a progress arc from the same start
spanning `-percent/100 * 360*16`; the progress span is negative (clockwise)
for any positive percent and a full -360·16 at percent 100. -/
theorem arc_geometry :
    (∀ s : BatteryWidget,
      (paintEvent s).bgStartAngle = 90 * 16 ∧
      (paintEvent s).bgSpanAngle = 360 * 16 ∧
      (paintEvent s).progressStartAngle = 90 * 16 ∧
      (paintEvent s).progressSpan = -s.animated_percent / 100 * (360 * 16)) ∧
    (∀ s : BatteryWidget, 0 < s.animated_percent → (paintEvent s).progressSpan < 0) ∧
    (∀ s : BatteryWidget, s.animated_percent = 100 →
      (paintEvent s).progressSpan = -(360 * 16)) := by
  refine ⟨fun s => ⟨rfl, rfl, rfl, rfl⟩, ?_, ?_⟩
  · intro s h
    show -s.animated_percent / 100 * (360 * 16) < 0
    nlinarith
  · intro s h
    show -s.animated_percent / 100 * (360 * 16) = -(360 * 16)
    rw [h]
    norm_num

/-- Witness for C7 at concrete displayed percents 25 and 100. -/
theorem arc_geometry_witness :
    (paintEvent { initWidget with animated_percent := 25 }).progressSpan < 0 ∧
    (paintEvent { initWidget with animated_percent := 100 }).progressSpan = -(360 * 16) :=
  ⟨arc_geometry.2.1 { initWidget with animated_percent := 25 } (show (0:ℚ) < 25 by norm_num),
   arc_geometry.2.2 { initWidget with animated_percent := 100 } rfl⟩

/-- C8: a right-button press closes the widget and changes nothing else;
a press of any other button (left included) leaves the state exactly as it
was. -/
theorem right_click_closes :
    (∀ s : BatteryWidget, mousePressEvent s .RightButton = { s with closed := true }) ∧
    (∀ (s : BatteryWidget) (b : MouseButton), b ≠ .RightButton → mousePressEvent s b = s) ∧
    (∀ s : BatteryWidget, mousePressEvent s .LeftButton = s) := by
  refine ⟨fun s => rfl, ?_, fun s => rfl⟩
  intro s b h
  rw [mousePressEvent, if_neg h]

/-- Witness for C8 at concrete buttons: right closes the initial widget,
middle leaves it unchanged. -/
theorem right_click_closes_witness :
    (mousePressEvent initWidget .RightButton).closed = true ∧
    mousePressEvent initWidget .MiddleButton = initWidget :=
  ⟨by rw [right_click_closes.1 initWidget],
   right_click_closes.2.1 initWidget .MiddleButton (by decide)⟩

/-- C9: the render is a function of the animated displayed percent (plus
plugged and pulse scale) only — two states agreeing on those three fields
render identically, whatever raw reading sits in the animation target — and
the color pair, glyph fill height `41 * percent/100`, and integer text all
use that animated value. Concretely, mid-way (500 ms) through the poll
0 → 100 the displayed value is 87.5, never an OS reading, giving the cyan
pair and the text number 87. -/
theorem render_from_animated_value :
    (∀ s t : BatteryWidget,
      s.animated_percent = t.animated_percent → s.plugged = t.plugged →
      s.pulse_scale = t.pulse_scale → paintEvent s = paintEvent t) ∧
    (∀ s : BatteryWidget,
      (paintEvent s).color1 = (colorPair s.plugged s.animated_percent).1 ∧
      (paintEvent s).icon.fill_height = (45 - 4) * (s.animated_percent / 100) ∧
      (paintEvent s).textPercent = pyInt s.animated_percent) ∧
    displayedAt (update_battery_info initWidget (.ok (some ⟨100, false⟩))) 500 = 175/2 ∧
    (175 : ℚ)/2 ≠ 0 ∧ (175 : ℚ)/2 ≠ 100 ∧
    colorPair false (175/2) = ("#00E5FF", "#00B8D4") ∧
    pyInt (175/2) = 87 := by
  refine ⟨?_, fun s => ⟨rfl, rfl, rfl⟩, ?_, by norm_num, by norm_num,
    by norm_num [colorPair], by norm_num [pyInt]⟩
  · intro s t h1 h2 h3
    simp only [paintEvent, h1, h2, h3]
  · norm_num [displayedAt, update_battery_info, AnimState.valueAt, Easing.eval, pyInt,
      initWidget]

/-- Witness for C9 at concrete inputs: a state differing from the initial
one only in the animation's raw target renders identically to it. -/
theorem render_from_animated_value_witness :
    paintEvent { initWidget with animation := { initWidget.animation with endValue := 55 } } =
      paintEvent initWidget :=
  render_from_animated_value.1
    { initWidget with animation := { initWidget.animation with endValue := 55 } }
    initWidget rfl rfl rfl

/-- C10: the percent animation's target is the truncation `int(battery.percent)`
of the OS reading and the rendered text is the truncation of the animated
float; for the fractional reading 99.9 the displayed percent converges to
99, which differs from 99.9. -/
theorem int_truncation_convergence :
    (∀ (s : BatteryWidget) (p : ℚ) (b : Bool),
      (update_battery_info s (.ok (some ⟨p, b⟩))).animation.endValue = (pyInt p : ℚ)) ∧
    (∀ s : BatteryWidget, (paintEvent s).textPercent = pyInt s.animated_percent) ∧
    (∀ (s : BatteryWidget) (t : ℚ), s.animation.duration = 1000 → 1000 ≤ t →
      displayedAt (update_battery_info s (.ok (some ⟨999/10, false⟩))) t = 99) ∧
    pyInt (999/10) = 99 ∧ (99 : ℚ) ≠ 999/10 := by
  refine ⟨fun s p b => rfl, fun s => rfl, ?_, by norm_num [pyInt], by norm_num⟩
  intro s t hd ht
  rw [displayedAt_complete _ (by rw [update_some_animation]) t
    (by rw [update_some_animation]; simpa [hd] using ht), update_some_animation]
  norm_num [pyInt]

/-- Witness for C10 at a concrete input: polling 99.9 from the initial state
displays 99 once the animation completes. -/
theorem int_truncation_convergence_witness :
    displayedAt (update_battery_info initWidget (.ok (some ⟨999/10, false⟩))) 1000 = 99 :=
  int_truncation_convergence.2.2.1 initWidget 1000 rfl (le_refl 1000)

end BatteryIndicator
